import Mathlib

/-!
Verification of the power-plan plugin (`main.py`, `default_power_plans.py`,
`power_plan_observers.py`, `system_encoding.py`) against its specification.

The Python code is shallowly embedded: external subprocess invocations become
explicit parameters describing their outcome, file-system caches become values,
and the side effects that matter to the specification (hardware-control calls,
cache reads/writes, detection queries) are collected in explicit effect traces.
-/

/-! ## Character helpers

`Char.toLower` in Lean lowers exactly the ASCII letters `A`-`Z`, which agrees
with Python's `str.lower` on every ASCII string; all strings the code lowers
are either UUID text matched by an ASCII regex or compared against ASCII
literals, so this model is exact where it is used.
-/

/-- Python `str.lower`, modelled character by character (exact on ASCII). -/
def pyLowerList (cs : List Char) : List Char := cs.map Char.toLower

/-- Python `str.lower` on a whole string. -/
def pyLower (s : String) : String := ⟨pyLowerList s.data⟩

/-- ASCII whitespace: the characters matched by the regex class `\s` and
stripped by `str.strip` (the Python versions additionally cover rare
non-ASCII Unicode spaces, which never occur in the inputs modelled here). -/
def wsChar (c : Char) : Bool :=
  c = ' ' || c = '\t' || c = '\n' || c = '\r' || c = '\x0b' || c = '\x0c'

/-- A character matched by the regex class `[0-9a-f]` under `re.IGNORECASE`. -/
def hexChar (c : Char) : Bool :=
  ('0' ≤ c && c ≤ '9') || ('a' ≤ c && c ≤ 'f') || ('A' ≤ c && c ≤ 'F')

/-- Python `str.strip()`: drop leading and trailing whitespace. -/
def pyStrip (cs : List Char) : List Char :=
  ((cs.dropWhile wsChar).reverse.dropWhile wsChar).reverse

/-- Python `str.split('\n')`. -/
def splitNl : List Char → List (List Char)
  | [] => [[]]
  | c :: cs =>
    if c = '\n' then [] :: splitNl cs
    else
      match splitNl cs with
      | l :: ls => (c :: l) :: ls
      | [] => [[c]]

/-- Python substring test `needle in haystack` (second argument is the
needle). -/
def containsSub : List Char → List Char → Bool
  | hay, needle =>
    match hay with
    | [] => needle.isEmpty
    | _ :: t => needle.isPrefixOf hay || containsSub t needle

/-! ## The UUID-and-name regex

`main.py` and `default_power_plans.py` scan each output line with
`re.search(r'(<UUID>)\s+\(([^)]+)\)', line, re.IGNORECASE)` where `<UUID>` is
`[0-9a-f]{8}-[0-9a-f]{4}-[0-9a-f]{4}-[0-9a-f]{4}-[0-9a-f]{12}`.  The pattern
has a fixed shape, so `re.search` is the leftmost position at which the shape
matches; `searchLine` tries each start position from the left.
-/

/-- Shape of the UUID pattern: `true` = hex digit, `false` = a dash. -/
def uuidShape : List Bool :=
  List.replicate 8 true ++ [false] ++ List.replicate 4 true ++ [false] ++
  List.replicate 4 true ++ [false] ++ List.replicate 4 true ++ [false] ++
  List.replicate 12 true

/-- Match a fixed character shape at the head of the input, returning the
matched characters and the rest of the input. -/
def matchShape : List Bool → List Char → Option (List Char × List Char)
  | [], cs => some ([], cs)
  | _ :: _, [] => none
  | b :: bs, c :: cs =>
    if (if b then hexChar c else c = '-') then
      match matchShape bs cs with
      | some (m, rest) => some (c :: m, rest)
      | none => none
    else none

/-- Match `\s+\(([^)]+)\)` at the head of the input, returning the capture of
group 2 (the raw, unstripped name). -/
def matchNamePart : List Char → Option (List Char)
  | [] => none
  | c :: cs =>
    if wsChar c then
      match cs.dropWhile wsChar with
      | '(' :: rest =>
        match rest.takeWhile (fun d => d ≠ ')'), rest.dropWhile (fun d => d ≠ ')') with
        | nm :: nms, ')' :: _ => some (nm :: nms)
        | _, _ => none
      | _ => none
    else none

/-- `re.search` for the plan-line pattern: the leftmost start position where
the UUID shape followed by `\s+\(([^)]+)\)` matches.  Returns the two capture
groups (UUID text, raw name text). -/
def searchLine : List Char → Option (List Char × List Char)
  | [] => none
  | c :: cs =>
    match matchShape uuidShape (c :: cs) with
    | some (uuid, rest) =>
      match matchNamePart rest with
      | some name => some (uuid, name)
      | none => searchLine cs
    | none => searchLine cs

/-! ## Data model (`default_power_plans.py`, `main.py`) -/

/-- An entry of the localized-plan table: `{"name": ..., "icon": ...}`. -/
structure PlanInfo where
  name : String
  icon : String
deriving DecidableEq

/-- `DefaultPowerPlans.DEFAULT_PLANS_METADATA` (class attribute, embedded). -/
def DEFAULT_PLANS_METADATA : List (String × PlanInfo) :=
  [("a1841308-3541-4fab-bc81-f71556f20b4a",
      ⟨"Power saver", "Images/power-saver.png"⟩),
   ("381b4222-f694-41f0-9685-ff5bb260df2e",
      ⟨"Balanced", "Images/balanced.png"⟩),
   ("8c5e7fda-e8bf-4a96-9a85-a6e23a8c635c",
      ⟨"High performance", "Images/high-performance.png"⟩)]

/-- A `DefaultPowerPlans` instance; `localized_plans` is whatever
`_initialize` produced (cache contents or the freshly built table), which the
listing code only reads through `get_plan`. -/
structure DefaultPowerPlans where
  localized_plans : List (String × PlanInfo)

/-- `DefaultPowerPlans.get_plan`: `self._localized_plans.get(guid)`. -/
def DefaultPowerPlans.get_plan (d : DefaultPowerPlans) (guid : String) :
    Option PlanInfo :=
  d.localized_plans.lookup guid

/-- `DefaultPowerPlans.is_default_plan`:
`guid in self.DEFAULT_PLANS_METADATA` — exact dictionary-key membership. -/
def is_default_plan (guid : String) : Bool :=
  (DEFAULT_PLANS_METADATA.map Prod.fst).contains guid

/-- `DefaultPowerPlans.get_all_guids`: the set of metadata keys, modelled as
the (duplicate-free) key list; only membership is ever used. -/
def get_all_guids : List String := DEFAULT_PLANS_METADATA.map Prod.fst

/-- A `PowerPlan` object from `main.py`. -/
structure PowerPlan where
  identifier : String
  name : String
  icon_path : String
deriving DecidableEq

/-- `PowerPlanManager.DEFAULT_APP_ICON`. -/
def DEFAULT_APP_ICON : String := "Images/app.png"

/-- One line of the scanning loop of `get_all_system_plans` (main.py 93-100):
run the regex search; on a match, `guid = match.group(1).lower()` and
`name = match.group(2).strip()`. -/
def parsePlanLine (line : List Char) : Option (String × String) :=
  match searchLine line with
  | some (uuid, rawName) => some (⟨pyLowerList uuid⟩, ⟨pyStrip rawName⟩)
  | none => none

/-- The plan appended for a matched line (main.py 103-113): default plans use
the catalog record when present, otherwise the system-reported name with the
generic icon; custom plans always use the system name and generic icon. -/
def planForMatch (d : DefaultPowerPlans) (guid name : String) : PowerPlan :=
  if is_default_plan guid then
    match d.get_plan guid with
    | some info => ⟨guid, info.name, info.icon⟩
    | none => ⟨guid, name, DEFAULT_APP_ICON⟩
  else ⟨guid, name, DEFAULT_APP_ICON⟩

/-- The plans appended by the scanning loop, one per matching line.  The loop
never reads its own accumulators (`found_guids` is only consulted after the
loop), so it is the direct per-line map below. -/
def scannedPlans (d : DefaultPowerPlans) (lines : List (List Char)) :
    List PowerPlan :=
  lines.filterMap (fun l => (parsePlanLine l).map (fun gn => planForMatch d gn.1 gn.2))

/-- The `found_guids` set after the scanning loop: the lowercased UUID of
every matching line (membership is all that is used). -/
def foundGuids (lines : List (List Char)) : List String :=
  lines.filterMap (fun l => (parsePlanLine l).map Prod.fst)

/-- The "add missing default plans" loop (main.py 115-120). -/
def missingDefaultPlans (d : DefaultPowerPlans) (found : List String) :
    List PowerPlan :=
  get_all_guids.filterMap (fun g =>
    if found.contains g then none
    else (d.get_plan g).map (fun info => ⟨g, info.name, info.icon⟩))

/-- The `except` fallback (main.py 122-127): only catalog plans. -/
def catalogPlans (d : DefaultPowerPlans) : List PowerPlan :=
  get_all_guids.filterMap (fun g =>
    (d.get_plan g).map (fun info => ⟨g, info.name, info.icon⟩))

/-- Python string `<`: lexicographic comparison by character code points. -/
def pyStrLt : List Char → List Char → Bool
  | _, [] => false
  | [], _ :: _ => true
  | a :: as, b :: bs =>
    if a.toNat < b.toNat then true
    else if b.toNat < a.toNat then false
    else pyStrLt as bs

/-- Stable insertion used to model Python's stable `sorted(..., key=name)`:
an element moves past exactly the elements whose key is strictly smaller. -/
def insertByName (p : PowerPlan) : List PowerPlan → List PowerPlan
  | [] => [p]
  | q :: qs =>
    if pyStrLt q.name.data p.name.data then q :: insertByName p qs
    else p :: q :: qs

/-- `sorted(plans, key=lambda plan: plan.name)`: stable sort by name
(Python compares strings by code points, as Lean's `String` order does). -/
def sortPlansByName : List PowerPlan → List PowerPlan
  | [] => []
  | p :: ps => insertByName p (sortPlansByName ps)

/-- `PowerPlanManager.get_all_system_plans`.  The one external interaction is
`subprocess.check_output(["powercfg", "/list"])` followed by decoding;
`procOutput` is its outcome: `some output` when it returns decoded text,
`none` when it raises (the surrounding `try` then falls back to the catalog
plans).  Nothing after the call can raise: decoding uses `errors='replace'`
and the loops are pure. -/
def get_all_system_plans (d : DefaultPowerPlans) (procOutput : Option String) :
    List PowerPlan :=
  match procOutput with
  | some output =>
    let lines := splitNl output.data
    sortPlansByName (scannedPlans d lines ++ missingDefaultPlans d (foundGuids lines))
  | none => sortPlansByName (catalogPlans d)

/-- The identifiers reported by matching output lines, for stating claims
about duplicate lines (`[]` when the external invocation raised). -/
def matchedIdsOf : Option String → List String
  | some s => foundGuids (splitNl s.data)
  | none => []

/-! ## `PowerPlanManager.switch_to_plan` (main.py 131-137) -/

/-- The ways launching the child process itself raises inside
`subprocess.call` (instead of returning an exit status): the executable is
missing (`FileNotFoundError`), or any other launch-time error. -/
inductive SpawnError
  | fileNotFound
  | other
deriving DecidableEq

/-- `PowerPlanManager.switch_to_plan`: runs
`subprocess.call(["powercfg", "/s", identifier])` and ignores the returned
exit status.  `callResult` is the invocation's outcome: `.ok code` when the
process ran and exited with status `code` (`subprocess.call` returns the
status without raising, whatever its value), `.error e` when launching the
process raised.  There is no `try`/`except` in this method, so a raise
propagates to the caller. -/
def switch_to_plan (identifier : String)
    (callResult : Except SpawnError Int) : Except SpawnError Unit :=
  match identifier, callResult with
  | _, .ok _code => .ok ()
  | _, .error e => .error e

/-! ## `SystemEncoding.decode_output` (system_encoding.py 74-76) -/

/-- A single-byte codec table, as Python's `cpXXX` codecs: each byte value
either decodes to a character or is undefined in the codepage. -/
def Codec := Nat → Option Char

/-- U+FFFD, the replacement character substituted by `errors='replace'`. -/
def replacementChar : Char := '�'

/-- `bytes.decode(encoding, errors='strict')` for a single-byte codec:
raises `UnicodeDecodeError` (modelled as `.error` with the offending byte)
at the first byte undefined in the codepage. -/
def decodeStrict (codec : Codec) : List Nat → Except Nat (List Char)
  | [] => .ok []
  | b :: bs =>
    match codec b with
    | some c =>
      match decodeStrict codec bs with
      | .ok cs => .ok (c :: cs)
      | .error j => .error j
    | none => .error b

/-- `SystemEncoding.decode_output`:
`output_bytes.decode(self._encoding, errors='replace')` — every byte that is
undefined in the codepage becomes U+FFFD instead of aborting the decode. -/
def decode_output (codec : Codec) (output_bytes : List Nat) : String :=
  ⟨output_bytes.map (fun b => (codec b).getD replacementChar)⟩

/-! ## `LenovoLegionLEDObserver` (power_plan_observers.py) -/

/-- `LenovoLegionLEDObserver.LENOVO_POWER_PLANS`: plan GUID → WMI color. -/
def LENOVO_POWER_PLANS : List (String × Nat) :=
  [("a1841308-3541-4fab-bc81-f71556f20b4a", 1),
   ("381b4222-f694-41f0-9685-ff5bb260df2e", 1),
   ("8c5e7fda-e8bf-4a96-9a85-a6e23a8c635c", 2)]

/-- The observable interactions of the observer with the outside world. -/
inductive Effect
  | cacheRead                              -- reading is_lenovo_system.json
  | cacheWrite (b : Bool)                  -- _save_cache(b)
  | queryManufacturer                      -- wmic computersystem get manufacturer
  | queryModel                             -- wmic computersystem get model
  | ledCall (surface : Nat) (color : Nat)  -- a WMI hardware-control invocation
deriving DecidableEq

/-- Contents of `.cache/is_lenovo_system.json` as `_detect_lenovo_system`
sees them: no file, a file that cannot be opened or parsed, or a parsed JSON
object whose `is_lenovo_system` value is `v` (`none` = key absent, in which
case `data.get('is_lenovo_system', False)` yields `False`). -/
inductive VendorCache
  | missing
  | unreadable
  | parsed (v : Option Bool)
deriving DecidableEq

/-- Outcomes of the external inputs of `_detect_lenovo_system`: the cache
file, and the two `wmic` queries (whose bytes the code decodes with
`errors='ignore'`; the decoded text is supplied here and `.lower()` is
applied by the embedding). -/
structure DetectEnv where
  cache : VendorCache
  manufacturer : Except Unit String
  model : Except Unit String

/-- The query part of `_detect_lenovo_system` (power_plan_observers.py
106-132), reached when the cache yields nothing; `pre` carries the effect of
the preceding cache-read attempt. -/
def detectByQueries (env : DetectEnv) (pre : List Effect) : Bool × List Effect :=
  match env.manufacturer with
  | .error _ => (false, pre ++ [.queryManufacturer, .cacheWrite false])
  | .ok manufacturer =>
    if containsSub (pyLower manufacturer).data "lenovo".data = false then
      (false, pre ++ [.queryManufacturer, .cacheWrite false])
    else
      match env.model with
      | .error _ => (false, pre ++ [.queryManufacturer, .queryModel, .cacheWrite false])
      | .ok model =>
        let is_lenovo := containsSub (pyLower model).data "legion".data
        (is_lenovo, pre ++ [.queryManufacturer, .queryModel, .cacheWrite is_lenovo])

/-- `LenovoLegionLEDObserver._detect_lenovo_system`: a readable cache file
wins (`data.get('is_lenovo_system', False)`); otherwise the two `wmic`
queries decide, and the result is written back to the cache. -/
def detect_lenovo_system (env : DetectEnv) : Bool × List Effect :=
  match env.cache with
  | .parsed v => (v.getD false, [.cacheRead])
  | .missing => detectByQueries env []
  | .unreadable => detectByQueries env [.cacheRead]

/-- Availability of the WMI control surfaces for `_set_led_color`:
whether the `wmi` module imported, whether `wmi.WMI(namespace="root\\WMI")`
succeeds, and for each candidate class the outcome of enumerating its
instances (`.error` = the query raised; each listed `Bool` tells whether the
control call on that instance returns normally). -/
structure WmiEnv where
  moduleAvailable : Bool
  connectOk : Bool
  lighting : Except Unit (List Bool)
  gamezone : Except Unit (List Bool)

/-- `LenovoLegionLEDObserver._set_led_color` (power_plan_observers.py
142-171), as the list of hardware-control invocations it performs: surface 1
is `LENOVO_LIGHTING_METHOD.SetLighting`, surface 2 is
`LENOVO_GAMEZONE_DATA.SetData`.  The first candidate that returns normally
ends the method; a raise anywhere is swallowed. -/
def set_led_color (w : WmiEnv) (color_code : Nat) : List Effect :=
  if w.moduleAvailable = false then []
  else if w.connectOk = false then []
  else
    let gz : List Effect :=
      match w.gamezone with
      | .ok (_ :: _) => [.ledCall 2 color_code]
      | _ => []
    match w.lighting with
    | .ok (ok1 :: _) =>
      if ok1 then [.ledCall 1 color_code] else .ledCall 1 color_code :: gz
    | _ => gz

/-- The observer's mutable state: `self._is_lenovo_system`
(initialized to `None` in `__init__`). -/
structure LedObserver where
  is_lenovo_system : Option Bool
deriving DecidableEq

/-- `LenovoLegionLEDObserver.on_power_plan_activated` (power_plan_observers.py
65-82): non-Lenovo plans return immediately; otherwise the cached-or-detected
vendor flag gates the LED call. -/
def on_power_plan_activated (st : LedObserver) (env : DetectEnv) (wmi : WmiEnv)
    (power_plan_guid : String) : LedObserver × List Effect :=
  let guid_lower := pyLower power_plan_guid
  if ((LENOVO_POWER_PLANS.map Prod.fst).contains guid_lower) = false then
    (st, [])
  else
    let detected :=
      match st.is_lenovo_system with
      | none => detect_lenovo_system env
      | some b => (b, [])
    if detected.1 = false then (⟨some detected.1⟩, detected.2)
    else
      let led_color_code := (LENOVO_POWER_PLANS.lookup guid_lower).getD 0
      (⟨some detected.1⟩, detected.2 ++ set_led_color wmi led_color_code)

/-- A sequence of `on_power_plan_activated` calls on one observer instance,
with the environment (cache file, wmic answers, WMI surfaces) held fixed,
collecting all effects in order. -/
def runActivations (env : DetectEnv) (wmi : WmiEnv) :
    LedObserver → List String → LedObserver × List Effect
  | st, [] => (st, [])
  | st, g :: gs =>
    let step := on_power_plan_activated st env wmi g
    let rest := runActivations env wmi step.1 gs
    (rest.1, step.2 ++ rest.2)

/-! ## The Activation Observer Registry -/

/-- What one registered observer's `onActivated(id)` call does: the events it
records before finishing, and whether it returns normally or raises. -/
structure ObserverRun where
  events : List Nat
  outcome : Except Unit Unit

/-- Modelled from the spec: the Activation Observer Registry itself is not
among the source files (only the observer interface
`PowerPlanActivationObserver` is).  Per §4.4, `notifyAll(id)` invokes
`onActivated(id)` on every registered observer in registration order, catches
and discards any failure one observer raises before proceeding to the next,
and never fails itself.  The fold is the registry loop
`for o in observers: try: o.onActivated(id) except: pass`; an observer's
recorded events are kept whatever its outcome. -/
def notifyAll (observers : List (String → ObserverRun)) (id : String) :
    Except Unit (List Nat) :=
  .ok (observers.foldl (fun acc o => acc ++ (o id).events) [])

/-- Is an effect a WMI hardware-control invocation? -/
def isLedCall : Effect → Bool
  | .ledCall _ _ => true
  | _ => false

/-! ## Helper lemmas -/

theorem char_toNat_ofNat_lt {n : Nat} (h : n < 55296) : (Char.ofNat n).toNat = n := by
  rw [Char.ofNat, dif_pos (Or.inl h)]
  rfl

theorem char_toLower_toNat (c : Char) :
    c.toLower.toNat = if 65 ≤ c.toNat ∧ c.toNat ≤ 90 then c.toNat + 32 else c.toNat := by
  show (if c.toNat ≥ 65 ∧ c.toNat ≤ 90 then Char.ofNat (c.toNat + 32) else c).toNat = _
  by_cases h : 65 ≤ c.toNat ∧ c.toNat ≤ 90
  · rw [if_pos h, if_pos ⟨h.1, h.2⟩, char_toNat_ofNat_lt (by omega)]
  · rw [if_neg h, if_neg h]

theorem char_toLower_toLower (c : Char) : c.toLower.toLower = c.toLower := by
  show (if c.toLower.toNat ≥ 65 ∧ c.toLower.toNat ≤ 90 then
      Char.ofNat (c.toLower.toNat + 32) else c.toLower) = c.toLower
  rw [if_neg]
  rw [char_toLower_toNat]
  by_cases h : 65 ≤ c.toNat ∧ c.toNat ≤ 90
  · rw [if_pos h]
    omega
  · rw [if_neg h]
    omega

theorem pyLowerList_idem (cs : List Char) :
    pyLowerList (pyLowerList cs) = pyLowerList cs := by
  simp [pyLowerList, List.map_map, Function.comp_def, char_toLower_toLower]

theorem insertByName_perm (p : PowerPlan) (l : List PowerPlan) :
    List.Perm (insertByName p l) (p :: l) := by
  induction l with
  | nil => rfl
  | cons q qs ih =>
    show List.Perm (if pyStrLt q.name.data p.name.data then q :: insertByName p qs
      else p :: q :: qs) (p :: q :: qs)
    by_cases h : pyStrLt q.name.data p.name.data = true
    · rw [if_pos h]
      exact (ih.cons q).trans (List.Perm.swap p q qs)
    · rw [if_neg h]

theorem sortPlansByName_perm (l : List PowerPlan) :
    List.Perm (sortPlansByName l) l := by
  induction l with
  | nil => rfl
  | cons p ps ih =>
    exact (insertByName_perm p (sortPlansByName ps)).trans (ih.cons p)

theorem mem_sortPlansByName {p : PowerPlan} {l : List PowerPlan} :
    p ∈ sortPlansByName l ↔ p ∈ l :=
  (sortPlansByName_perm l).mem_iff

theorem planForMatch_identifier (d : DefaultPowerPlans) (g n : String) :
    (planForMatch d g n).identifier = g := by
  unfold planForMatch
  by_cases h : is_default_plan g = true
  · rw [if_pos h]
    cases d.get_plan g <;> rfl
  · rw [if_neg h]

theorem scannedPlans_map_identifier (d : DefaultPowerPlans)
    (lines : List (List Char)) :
    (scannedPlans d lines).map PowerPlan.identifier = foundGuids lines := by
  induction lines with
  | nil => rfl
  | cons l ls ih =>
    unfold scannedPlans foundGuids at ih ⊢
    rw [List.filterMap_cons, List.filterMap_cons]
    cases h : parsePlanLine l with
    | none => simpa [h] using ih
    | some gn =>
      simp only [h, Option.map_some', List.map_cons, planForMatch_identifier]
      rw [ih]

theorem filterMap_map_sublist {α β : Type} (f : α → Option β) (gt : β → α)
    (h : ∀ a b, f a = some b → gt b = a) :
    ∀ l : List α, ((l.filterMap f).map gt).Sublist l := by
  intro l
  induction l with
  | nil => simp
  | cons a as ih =>
    rw [List.filterMap_cons]
    cases hf : f a with
    | none => exact ih.cons a
    | some b =>
      rw [List.map_cons, h a b hf]
      exact ih.cons₂ a

theorem get_all_guids_nodup : get_all_guids.Nodup := by decide

theorem missing_map_id_sublist (d : DefaultPowerPlans) (found : List String) :
    (((missingDefaultPlans d found).map PowerPlan.identifier).Sublist get_all_guids) := by
  unfold missingDefaultPlans
  apply filterMap_map_sublist
  intro a b hab
  by_cases hc : found.contains a = true
  · rw [if_pos hc] at hab
    exact absurd hab (by simp)
  · rw [if_neg hc] at hab
    cases hd : d.get_plan a with
    | none => rw [hd] at hab; exact absurd hab (by simp)
    | some info =>
      rw [hd] at hab
      cases hab
      rfl

theorem missing_id_not_found (d : DefaultPowerPlans) (found : List String)
    (a : String) (ha : a ∈ (missingDefaultPlans d found).map PowerPlan.identifier) :
    a ∉ found := by
  unfold missingDefaultPlans at ha
  simp only [List.mem_map, List.mem_filterMap] at ha
  obtain ⟨p, ⟨g, _, hsome⟩, rfl⟩ := ha
  by_cases hc : found.contains g = true
  · rw [if_pos hc] at hsome
    exact absurd hsome (by simp)
  · rw [if_neg hc] at hsome
    cases hd : d.get_plan g with
    | none => rw [hd] at hsome; exact absurd hsome (by simp)
    | some info =>
      rw [hd] at hsome
      cases hsome
      simpa using hc

theorem catalog_map_id_sublist (d : DefaultPowerPlans) :
    ((catalogPlans d).map PowerPlan.identifier).Sublist get_all_guids := by
  unfold catalogPlans
  apply filterMap_map_sublist
  intro a b hab
  cases hd : d.get_plan a with
  | none => rw [hd] at hab; exact absurd hab (by simp)
  | some info =>
    rw [hd] at hab
    cases hab
    rfl

/-! ## The claims -/

/-- C1 as stated is false: two output lines reporting the same UUID each
append their own record, so the returned listing contains two records with
the same identifier. -/
theorem C1_counterexample :
    ¬ ((get_all_system_plans ⟨[]⟩
        (some "11111111-1111-1111-1111-111111111111  (Custom)\n11111111-1111-1111-1111-111111111111  (Custom)")).map
        PowerPlan.identifier).Nodup := by decide

/-- C1 (amended): if no two matching output lines report the same identifier,
the returned listing has pairwise distinct identifiers: the append-missing
phase only adds well-known identifiers that were not observed, and the
failure fallback only emits the distinct catalog keys. -/
theorem C1_amended_nodup (d : DefaultPowerPlans) (out : Option String)
    (h : (matchedIdsOf out).Nodup) :
    ((get_all_system_plans d out).map PowerPlan.identifier).Nodup := by
  cases out with
  | none =>
    unfold get_all_system_plans
    rw [((sortPlansByName_perm _).map PowerPlan.identifier).nodup_iff]
    exact (catalog_map_id_sublist d).nodup get_all_guids_nodup
  | some s =>
    unfold get_all_system_plans
    rw [((sortPlansByName_perm _).map PowerPlan.identifier).nodup_iff]
    rw [List.map_append, scannedPlans_map_identifier]
    rw [List.nodup_append]
    refine ⟨h, ((missing_map_id_sublist d _).nodup get_all_guids_nodup), ?_⟩
    intro a ha hmem
    exact missing_id_not_found d _ a hmem ha

/-- Witness for C1 (amended) at a concrete two-line output. -/
theorem C1_amended_witness :
    (matchedIdsOf (some "a1841308-3541-4fab-bc81-f71556f20b4a  (A)\n22222222-2222-2222-2222-222222222222  (B)")).Nodup ∧
    ((get_all_system_plans ⟨[]⟩
        (some "a1841308-3541-4fab-bc81-f71556f20b4a  (A)\n22222222-2222-2222-2222-222222222222  (B)")).map
        PowerPlan.identifier).Nodup :=
  ⟨by decide, C1_amended_nodup ⟨[]⟩ _ (by decide)⟩

/-- C2 as stated is false: `switch_to_plan` has no `try`/`except`, so when
launching the external process raises (process missing), the exception
propagates to the caller instead of being swallowed. -/
theorem C2_counterexample :
    switch_to_plan "not-a-uuid" (.error .fileNotFound) = .error .fileNotFound ∧
    (Except.error SpawnError.fileNotFound : Except SpawnError Unit) ≠ .ok () :=
  ⟨rfl, by simp⟩

/-- C2 (amended): `switch_to_plan` swallows any exit status of the external
process (`subprocess.call` returns the status, which is discarded), but a
failure to launch the process propagates as an exception. -/
theorem C2_amended_swallows_exit_status (identifier : String) :
    (∀ code : Int, switch_to_plan identifier (.ok code) = .ok ()) ∧
    (∀ e : SpawnError, switch_to_plan identifier (.error e) = .error e) :=
  ⟨fun _ => rfl, fun _ => rfl⟩

/-- C3 as stated is false: when a well-known identifier is reported with
localized name "X" and the catalog has no entry for it, the returned record
keeps the system-reported name "X" with the generic icon — it does not fall
back to the embedded default name "Power saver". -/
theorem C3_counterexample :
    get_all_system_plans ⟨[]⟩
        (some "a1841308-3541-4fab-bc81-f71556f20b4a  (X)") =
      [⟨"a1841308-3541-4fab-bc81-f71556f20b4a", "X", "Images/app.png"⟩] ∧
    DEFAULT_PLANS_METADATA.lookup "a1841308-3541-4fab-bc81-f71556f20b4a" =
      some ⟨"Power saver", "Images/power-saver.png"⟩ ∧
    ("X" : String) ≠ "Power saver" ∧ ("X" : String) ≠ "" := by decide

/-- C3 (amended): when a line reports a well-known default identifier whose
catalog lookup is empty, the returned record keeps the system-reported
(localized) name with the generic icon. -/
theorem C3_amended_keeps_system_name (d : DefaultPowerPlans) (out : String)
    (line : List Char) (g n : String) (hline : line ∈ splitNl out.data)
    (hparse : parsePlanLine line = some (g, n))
    (hdef : is_default_plan g = true) (hcat : d.get_plan g = none) :
    PowerPlan.mk g n DEFAULT_APP_ICON ∈ get_all_system_plans d (some out) := by
  unfold get_all_system_plans
  rw [mem_sortPlansByName]
  apply List.mem_append_left
  unfold scannedPlans
  rw [List.mem_filterMap]
  refine ⟨line, hline, ?_⟩
  rw [hparse]
  simp [planForMatch, hdef, hcat]

/-- Witness for C3 (amended) at the concrete counterexample input. -/
theorem C3_amended_witness :
    ("a1841308-3541-4fab-bc81-f71556f20b4a  (X)".data ∈
        splitNl "a1841308-3541-4fab-bc81-f71556f20b4a  (X)".data) ∧
    (parsePlanLine "a1841308-3541-4fab-bc81-f71556f20b4a  (X)".data =
        some ("a1841308-3541-4fab-bc81-f71556f20b4a", "X")) ∧
    PowerPlan.mk "a1841308-3541-4fab-bc81-f71556f20b4a" "X" DEFAULT_APP_ICON ∈
      get_all_system_plans ⟨[]⟩ (some "a1841308-3541-4fab-bc81-f71556f20b4a  (X)") :=
  ⟨by decide, by decide,
    C3_amended_keeps_system_name ⟨[]⟩ "a1841308-3541-4fab-bc81-f71556f20b4a  (X)"
      "a1841308-3541-4fab-bc81-f71556f20b4a  (X)".data
      "a1841308-3541-4fab-bc81-f71556f20b4a" "X"
      (by decide) (by decide) (by decide) rfl⟩

/-- C4: a well-known default identifier that appears on no output line is
still returned, with the name and icon of its catalog record. -/
theorem C4_missing_default_included (d : DefaultPowerPlans) (out : String)
    (g : String) (info : PlanInfo) (hg : g ∈ get_all_guids)
    (hcat : d.get_plan g = some info)
    (habsent : g ∉ foundGuids (splitNl out.data)) :
    PowerPlan.mk g info.name info.icon ∈ get_all_system_plans d (some out) := by
  unfold get_all_system_plans
  rw [mem_sortPlansByName]
  apply List.mem_append_right
  unfold missingDefaultPlans
  rw [List.mem_filterMap]
  refine ⟨g, hg, ?_⟩
  rw [if_neg (by simpa using habsent), hcat]
  rfl

/-- Witness for C4 at a concrete output that reports only a custom plan. -/
theorem C4_witness :
    ("381b4222-f694-41f0-9685-ff5bb260df2e" ∈ get_all_guids) ∧
    ((⟨[("381b4222-f694-41f0-9685-ff5bb260df2e", ⟨"Ausbalanciert", "Images/balanced.png"⟩)]⟩ :
        DefaultPowerPlans).get_plan "381b4222-f694-41f0-9685-ff5bb260df2e" =
      some ⟨"Ausbalanciert", "Images/balanced.png"⟩) ∧
    ("381b4222-f694-41f0-9685-ff5bb260df2e" ∉
      foundGuids (splitNl "11111111-1111-1111-1111-111111111111  (Custom)".data)) ∧
    PowerPlan.mk "381b4222-f694-41f0-9685-ff5bb260df2e" "Ausbalanciert" "Images/balanced.png" ∈
      get_all_system_plans
        ⟨[("381b4222-f694-41f0-9685-ff5bb260df2e", ⟨"Ausbalanciert", "Images/balanced.png"⟩)]⟩
        (some "11111111-1111-1111-1111-111111111111  (Custom)") :=
  ⟨by decide, by decide, by decide,
    C4_missing_default_included
      ⟨[("381b4222-f694-41f0-9685-ff5bb260df2e", ⟨"Ausbalanciert", "Images/balanced.png"⟩)]⟩
      "11111111-1111-1111-1111-111111111111  (Custom)"
      "381b4222-f694-41f0-9685-ff5bb260df2e" ⟨"Ausbalanciert", "Images/balanced.png"⟩
      (by decide) (by decide) (by decide)⟩

/-- C7 as stated is false: `is_default_plan` is an exact (case-sensitive)
dictionary-key test, so the uppercase textual form of the well-known
power-saver identifier is rejected even though its lowercase form is
accepted. -/
theorem C7_counterexample :
    is_default_plan "A1841308-3541-4FAB-BC81-F71556F20B4A" = false ∧
    pyLower "A1841308-3541-4FAB-BC81-F71556F20B4A" =
      "a1841308-3541-4fab-bc81-f71556f20b4a" ∧
    is_default_plan "a1841308-3541-4fab-bc81-f71556f20b4a" = true := by decide

/-- C7 (amended): `is_default_plan` returns true exactly for the three
lowercase well-known identifier strings; any other string — including any
other letter case of a well-known identifier, and any UUID outside the
well-known set — returns false.  (Callers lowercase identifiers before
calling, which is where case-insensitivity lives.) -/
theorem C7_amended_case_sensitive (guid : String) :
    is_default_plan guid = true ↔
      (guid = "a1841308-3541-4fab-bc81-f71556f20b4a" ∨
       guid = "381b4222-f694-41f0-9685-ff5bb260df2e" ∨
       guid = "8c5e7fda-e8bf-4a96-9a85-a6e23a8c635c") := by
  show (DEFAULT_PLANS_METADATA.map Prod.fst).contains guid = true ↔ _
  simp [DEFAULT_PLANS_METADATA, List.contains_eq_any_beq]

theorem parse_guid_lowered (l : List Char) (g n : String)
    (h : parsePlanLine l = some (g, n)) : pyLower g = g := by
  unfold parsePlanLine at h
  cases hs : searchLine l with
  | none => rw [hs] at h; exact absurd h (by simp)
  | some un =>
    rw [hs] at h
    obtain ⟨u, nm⟩ := un
    simp only [Option.some.injEq, Prod.mk.injEq] at h
    rw [← h.1]
    show (⟨pyLowerList (pyLowerList u)⟩ : String) = ⟨pyLowerList u⟩
    rw [pyLowerList_idem]

theorem default_guid_lowered (g : String) (hg : g ∈ get_all_guids) :
    pyLower g = g := by
  simp only [get_all_guids, DEFAULT_PLANS_METADATA, List.map_cons, List.map_nil,
    List.mem_cons, List.not_mem_nil, or_false] at hg
  rcases hg with rfl | rfl | rfl <;> decide

/-- C9: every identifier in a returned listing is in lowercase canonical
form — identifiers parsed from output lines are lowercased before being
stored, and the appended catalog identifiers are the lowercase metadata
keys. -/
theorem C9_identifiers_lowercase (d : DefaultPowerPlans) (out : Option String)
    (p : PowerPlan) (hp : p ∈ get_all_system_plans d out) :
    pyLower p.identifier = p.identifier := by
  cases out with
  | none =>
    unfold get_all_system_plans at hp
    rw [mem_sortPlansByName] at hp
    have : p.identifier ∈ (catalogPlans d).map PowerPlan.identifier :=
      List.mem_map_of_mem _ hp
    exact default_guid_lowered _ ((catalog_map_id_sublist d).subset this)
  | some s =>
    unfold get_all_system_plans at hp
    rw [mem_sortPlansByName] at hp
    rcases List.mem_append.mp hp with hmem | hmem
    · unfold scannedPlans at hmem
      rw [List.mem_filterMap] at hmem
      obtain ⟨l, _, hsome⟩ := hmem
      cases hpl : parsePlanLine l with
      | none => rw [hpl] at hsome; exact absurd hsome (by simp)
      | some gn =>
        rw [hpl] at hsome
        simp only [Option.map_some', Option.some.injEq] at hsome
        rw [← hsome, planForMatch_identifier]
        exact parse_guid_lowered l gn.1 gn.2 (by rw [hpl])
    · have : p.identifier ∈ (missingDefaultPlans d _).map PowerPlan.identifier :=
        List.mem_map_of_mem _ hmem
      exact default_guid_lowered _ ((missing_map_id_sublist d _).subset this)

/-- Witness for C9 at a concrete listing containing an uppercase-reported
UUID. -/
theorem C9_witness :
    PowerPlan.mk "11111111-1111-1111-1111-11111111111a" "Custom" "Images/app.png" ∈
      get_all_system_plans ⟨[]⟩
        (some "11111111-1111-1111-1111-11111111111A  (Custom)") ∧
    pyLower "11111111-1111-1111-1111-11111111111a" =
      "11111111-1111-1111-1111-11111111111a" :=
  ⟨by decide,
    C9_identifiers_lowercase ⟨[]⟩
      (some "11111111-1111-1111-1111-11111111111A  (Custom)")
      (PowerPlan.mk "11111111-1111-1111-1111-11111111111a" "Custom" "Images/app.png")
      (by decide)⟩

theorem detect_cache_false (env : DetectEnv)
    (h : env.cache = .parsed (some false)) :
    detect_lenovo_system env = (false, [.cacheRead]) := by
  unfold detect_lenovo_system
  rw [h]
  rfl

theorem step_preserves_no_led (st : LedObserver) (env : DetectEnv)
    (wmi : WmiEnv) (g : String) (hc : env.cache = .parsed (some false))
    (hst : st.is_lenovo_system ≠ some true) :
    (on_power_plan_activated st env wmi g).1.is_lenovo_system ≠ some true ∧
    ((on_power_plan_activated st env wmi g).2.filter isLedCall) = [] := by
  unfold on_power_plan_activated
  by_cases hkey : ((LENOVO_POWER_PLANS.map Prod.fst).contains (pyLower g)) = false
  · rw [if_pos hkey]
    exact ⟨hst, rfl⟩
  · rw [if_neg hkey]
    cases hio : st.is_lenovo_system with
    | none =>
      simp only [detect_cache_false env hc]
      exact ⟨by simp, rfl⟩
    | some b =>
      cases b with
      | false => simp
      | true => exact absurd hio hst

theorem run_preserves_no_led (env : DetectEnv) (wmi : WmiEnv)
    (hc : env.cache = .parsed (some false)) (guids : List String) :
    ∀ st : LedObserver, st.is_lenovo_system ≠ some true →
    ((runActivations env wmi st guids).2.filter isLedCall) = [] := by
  induction guids with
  | nil => intro st _; rfl
  | cons g gs ih =>
    intro st hst
    obtain ⟨hst', hled⟩ := step_preserves_no_led st env wmi g hc hst
    show ((on_power_plan_activated st env wmi g).2 ++
        (runActivations env wmi (on_power_plan_activated st env wmi g).1 gs).2).filter
        isLedCall = []
    rw [List.filter_append, hled, ih _ hst']
    rfl

/-- C5: with the vendor-detection cache containing `false`, any number of
`on_power_plan_activated` calls on a fresh observer performs no WMI
hardware-control invocation, whatever the identifiers and however often they
repeat. -/
theorem C5_cache_false_no_led (env : DetectEnv) (wmi : WmiEnv)
    (guids : List String) (hc : env.cache = .parsed (some false)) :
    ((runActivations env wmi ⟨none⟩ guids).2.filter isLedCall) = [] :=
  run_preserves_no_led env wmi hc guids ⟨none⟩ (by simp)

/-- Witness for C5: a concrete Lenovo-capable environment whose cache says
`false`, repeatedly activating Lenovo plans (in both letter cases) and a
custom plan. -/
theorem C5_witness :
    (DetectEnv.mk (.parsed (some false)) (.ok "LENOVO") (.ok "Legion 5")).cache =
      .parsed (some false) ∧
    ((runActivations
        (DetectEnv.mk (.parsed (some false)) (.ok "LENOVO") (.ok "Legion 5"))
        (WmiEnv.mk true true (.ok [true]) (.ok [true])) ⟨none⟩
        ["381b4222-f694-41f0-9685-ff5bb260df2e",
         "8C5E7FDA-E8BF-4A96-9A85-A6E23A8C635C",
         "381b4222-f694-41f0-9685-ff5bb260df2e",
         "22222222-2222-2222-2222-222222222222"]).2.filter isLedCall) = [] :=
  ⟨rfl,
    C5_cache_false_no_led
      (DetectEnv.mk (.parsed (some false)) (.ok "LENOVO") (.ok "Legion 5"))
      (WmiEnv.mk true true (.ok [true]) (.ok [true]))
      ["381b4222-f694-41f0-9685-ff5bb260df2e",
       "8C5E7FDA-E8BF-4A96-9A85-A6E23A8C635C",
       "381b4222-f694-41f0-9685-ff5bb260df2e",
       "22222222-2222-2222-2222-222222222222"] rfl⟩

/-- C10: an identifier whose lowercase form is not a Lenovo power plan makes
`on_power_plan_activated` a complete no-op: the state is unchanged and no
effect — no detection query, no cache read or write, no hardware-control
call — is performed. -/
theorem C10_non_lenovo_noop (st : LedObserver) (env : DetectEnv)
    (wmi : WmiEnv) (guid : String)
    (h : ((LENOVO_POWER_PLANS.map Prod.fst).contains (pyLower guid)) = false) :
    on_power_plan_activated st env wmi guid = (st, []) := by
  unfold on_power_plan_activated
  rw [if_pos h]

/-- Witness for C10 at a concrete non-Lenovo identifier, in an environment
where detection and hardware control would succeed if attempted. -/
theorem C10_witness :
    ((LENOVO_POWER_PLANS.map Prod.fst).contains
      (pyLower "D1495054-18AB-4244-9AD3-4FC66DD42D6B")) = false ∧
    on_power_plan_activated ⟨none⟩
      (DetectEnv.mk .missing (.ok "LENOVO") (.ok "Legion 5"))
      (WmiEnv.mk true true (.ok [true]) (.ok [true]))
      "D1495054-18AB-4244-9AD3-4FC66DD42D6B" = (⟨none⟩, []) :=
  ⟨by decide,
    C10_non_lenovo_noop ⟨none⟩
      (DetectEnv.mk .missing (.ok "LENOVO") (.ok "Legion 5"))
      (WmiEnv.mk true true (.ok [true]) (.ok [true]))
      "D1495054-18AB-4244-9AD3-4FC66DD42D6B" (by decide)⟩

theorem foldl_append_flatten {α β : Type} (f : α → List β) :
    ∀ (l : List α) (acc : List β),
      l.foldl (fun a o => a ++ f o) acc = acc ++ (l.map f).flatten := by
  intro l
  induction l with
  | nil => intro acc; simp
  | cons o os ih =>
    intro acc
    simp only [List.foldl_cons, List.map_cons, List.flatten_cons, ih,
      List.append_assoc]

/-- C6: `notifyAll(id)` never fails, and it invokes every registered
observer's `onActivated(id)` in registration order: the recorded events of
each observer all appear, in that order, regardless of which observers
raised. -/
theorem C6_notifyAll_order_and_isolation
    (observers : List (String → ObserverRun)) (id : String) :
    notifyAll observers id =
      .ok ((observers.map (fun o => (o id).events)).flatten) := by
  unfold notifyAll
  rw [foldl_append_flatten (fun o => (o id).events) observers []]
  rfl

/-- C8: `decode_output` is total and byte-for-byte: it yields one character
per input byte, each decodable byte decodes by the codec, each undecodable
byte becomes U+FFFD — while the strict decode (`errors='strict'`) fails
outright as soon as any byte is undecodable. -/
theorem C8_decode_replaces_never_fails (codec : Codec)
    (output_bytes : List Nat) :
    (decode_output codec output_bytes).data.length = output_bytes.length ∧
    (∀ i : Nat, (decode_output codec output_bytes).data[i]? =
      (output_bytes[i]?).map (fun b => (codec b).getD replacementChar)) ∧
    ((∃ b ∈ output_bytes, codec b = none) →
      ∃ j, decodeStrict codec output_bytes = .error j) := by
  refine ⟨by simp [decode_output], fun i => by simp [decode_output], ?_⟩
  rintro ⟨b, hb, hnone⟩
  induction output_bytes with
  | nil => exact absurd hb (by simp)
  | cons x xs ih =>
    show ∃ j, (match codec x with
      | some c => match decodeStrict codec xs with
        | .ok cs => .ok (c :: cs)
        | .error j => .error j
      | none => .error x) = Except.error j
    rcases List.mem_cons.mp hb with rfl | hbxs
    · rw [hnone]
      exact ⟨b, rfl⟩
    · cases hx : codec x with
      | none => exact ⟨x, rfl⟩
      | some c =>
        obtain ⟨j, hj⟩ := ih hbxs
        rw [hj]
        exact ⟨j, rfl⟩

/-- Witness for C8: on concrete bytes `[65, 255]` with a codec that leaves
byte 255 undefined, `decode_output` yields a full-length string ending in
U+FFFD, and the strict decode fails. -/
theorem C8_witness :
    (decode_output (fun b => if b = 255 then none else some 'a') [65, 255]).data =
      ['a', replacementChar] ∧
    (∃ j, decodeStrict (fun b => if b = 255 then none else some 'a') [65, 255] =
      .error j) :=
  ⟨by decide,
    (C8_decode_replaces_never_fails (fun b => if b = 255 then none else some 'a')
      [65, 255]).2.2 ⟨255, by decide, by decide⟩⟩
